import Mathlib

/-!
Shallow embedding of `src/service-finder.py` (stratosphereips/service-finder).

The script discovers mDNS/DNS-SD services with `zeroconf`, resolves a device
name for each instance (reverse DNS, then optional NetBIOS), and prints
aligned, colorized lines.  We embed the two listener classes:

* `MyListener` (instance tracker): fields `services` (a dict from raw
  instance name to dotted-decimal address string), `max_name_length`,
  `max_ip_length` (fixed 15), `debug`; methods `remove_service`,
  `add_service`, `update_service`, `resolve_device_name`,
  `format_service_type` / `format_service_name`, `format_output`.
* `ServiceTypeListener` (type-discovery driver): `add_service` creates a
  `ServiceBrowser` for the formatted type on every call; `format_service_type`.

External collaborators (the zeroconf engine, `socket.gethostbyaddr`, the
NetBIOS client) are modelled by outcome parameters: each call site receives
the collaborator's behaviour for that call as an explicit value.  Python
exceptions that escape a handler are modelled by a `raisedExn` result;
`print` calls are collected into output lists (colorama colour escapes are
kept; `autoreset` suffixes are presentation-only and omitted, and the
interpolated exception text `{e}` of a caught exception is abstracted away).
-/

/-! ### Colour escapes (colorama `Fore`) -/

def ForeRED : String := "\x1b[31m"

def ForeGREEN : String := "\x1b[32m"

def ForeYELLOW : String := "\x1b[33m"

def ForeBLUE : String := "\x1b[34m"

def ForeMAGENTA : String := "\x1b[35m"

def ForeCYAN : String := "\x1b[36m"

/-! ### Python string primitives used by the script -/

/-- Python `s.endswith('.')`: true iff the last character of `s` is `'.'`
(false on the empty string). -/
def pyEndsWithDot (s : String) : Bool := s.data.getLast? == some '.'

/-- Python `' ' * n`: a run of `n` spaces, the empty string when `n ≤ 0`. -/
def pyRepeatSpace (n : Int) : String := String.mk (List.replicate n.toNat ' ')

/-- Python truthiness of an optional string (`None` and `""` are falsy). -/
def pyTruthy : Option String → Bool
  | none => false
  | some s => s != ""

/-- Python `name if name else "Unknown"` on an optional string `name`. -/
def pyOrUnknown : Option String → String
  | none => "Unknown"
  | some s => if s = "" then "Unknown" else s

/-! ### Collaborator outcome models -/

/-- Outcome of the `socket.gethostbyaddr(ip)[0]` call: a hostname, one of the
two handled exceptions (`socket.herror`, `socket.gaierror`), or any other
exception (which the `except (socket.herror, socket.gaierror)` clause does
not catch). -/
inductive DnsOutcome
  | ok (hostname : String)
  | herror
  | gaierror
  | otherError
deriving DecidableEq, Repr

/-- Outcome of `nb.queryIPForName(ip, timeout=1)`: a returned value (possibly
`None`) or a raised exception (caught by the `except Exception` clause). -/
inductive NbQueryOutcome
  | ok (result : Option String)
  | raised
deriving DecidableEq, Repr

/-- Behaviour of the NetBIOS collaborator for one resolution: whether the
`NetBIOS.NetBIOS()` constructor raises, and the outcome of the query if it
does not. -/
structure NetBIOSEnv where
  ctorRaises : Bool
  query : NbQueryOutcome
deriving DecidableEq, Repr

/-- Result of a Python call: a returned string, or an exception propagating
to the caller. -/
inductive PyResult
  | ok (value : String)
  | raisedExn
deriving DecidableEq, Repr

/-- What one call of `resolve_device_name` did: its result and whether the
NetBIOS resource was opened (constructor returned), the query invoked, and
`nb.close()` called. -/
structure ResolveResult where
  result : PyResult
  nbOpened : Bool
  nbQueried : Bool
  nbClosed : Bool
deriving DecidableEq, Repr

/-- `MyListener.resolve_device_name(self, ip)` (lines 54-73).  `name` starts
as `None`; the reverse-DNS lookup fills it unless it raises (`herror` /
`gaierror` are passed over, anything else propagates).  If `name` is falsy
and the `nmb.NetBIOS` import succeeded, a NetBIOS client is constructed
(outside the `try`), the query runs inside `try ... except Exception ...
finally: nb.close()`.  Finally `name if name else "Unknown"` is returned.
The collaborators' behaviour at this `ip` is passed in as `dns` and
`netbios` (`none` models the failed import). -/
def resolve_device_name (dns : DnsOutcome) (netbios : Option NetBIOSEnv) :
    ResolveResult :=
  match dns with
  | .otherError => ⟨.raisedExn, false, false, false⟩
  | _ =>
    let name : Option String :=
      match dns with
      | .ok h => some h
      | _ => none
    if pyTruthy name then
      ⟨.ok (pyOrUnknown name), false, false, false⟩
    else
      match netbios with
      | none => ⟨.ok (pyOrUnknown name), false, false, false⟩
      | some env =>
        if env.ctorRaises then ⟨.raisedExn, false, false, false⟩
        else
          match env.query with
          | .ok v => ⟨.ok (pyOrUnknown v), true, true, true⟩
          | .raised => ⟨.ok (pyOrUnknown name), true, true, true⟩

/-! ### MyListener state and methods -/

/-- The mutable state of a `MyListener` (lines 17-22).  `services` is the
Python dict, modelled as an association list observationally equal to the
dict through `mapLookup` (insertion keeps keys unique). -/
structure MyListener where
  debug : Bool
  services : List (String × String)
  max_name_length : Nat
  max_ip_length : Nat
deriving DecidableEq, Repr

/-- `MyListener.__init__` (lines 17-22). -/
def MyListener.init (debug : Bool) : MyListener :=
  { debug := debug, services := [], max_name_length := 0, max_ip_length := 15 }

/-- Dict lookup `d[k]` / `k in d` for the `services` dict. -/
def mapLookup (m : List (String × String)) (k : String) : Option String :=
  (m.find? (fun p => p.1 == k)).map Prod.snd

/-- Dict assignment `d[k] = v`. -/
def mapInsert (m : List (String × String)) (k v : String) :
    List (String × String) :=
  (k, v) :: m.filter (fun p => p.1 != k)

/-- Dict deletion `del d[k]`. -/
def mapErase (m : List (String × String)) (k : String) :
    List (String × String) :=
  m.filter (fun p => p.1 != k)

/-- `MyListener.format_service_type` (lines 75-78). -/
def MyListener.format_service_type (service_type : String) : String :=
  if pyEndsWithDot service_type then service_type else service_type ++ "."

/-- `MyListener.format_service_name` (lines 80-83). -/
def MyListener.format_service_name (service_name : String) : String :=
  if pyEndsWithDot service_name then service_name else service_name ++ "."

/-- `MyListener.format_output` (lines 85-89).  Note the name spacing uses the
literal constant `60`, while the IP spacing uses `self.max_ip_length`. -/
def MyListener.format_output (l : MyListener)
    (name address device_name : String) : String :=
  let name_spacing := pyRepeatSpace (60 - (name.length : Int) + 4)
  ForeGREEN ++ "Service " ++ name ++ name_spacing ++
    ForeCYAN ++ "IP: " ++ address ++
      pyRepeatSpace ((l.max_ip_length : Int) - (address.length : Int) + 4) ++
    ForeMAGENTA ++ "Name: " ++ device_name

/-- `MyListener.remove_service` (lines 24-27): returns the new state and the
printed lines. -/
def MyListener.remove_service (l : MyListener) (name : String) :
    MyListener × List String :=
  if (mapLookup l.services name).isSome then
    ({ l with services := mapErase l.services name },
     [ForeRED ++ "Service " ++ name ++ " removed"])
  else
    (l, [])

/-- `socket.inet_ntoa` on a 4-byte IPv4 address given as four octets. -/
def inet_ntoa : Nat × Nat × Nat × Nat → String
  | (a, b, c, d) =>
    toString a ++ "." ++ toString b ++ "." ++ toString c ++ "." ++ toString d

/-- Outcome of `zeroconf.get_service_info(formatted_type, formatted_name)`:
a raised `BadTypeInNameException`, a falsy result (no info), or a
`ServiceInfo` carrying its (possibly empty) list of raw IPv4 addresses. -/
inductive GetInfoOutcome
  | raisesBadType
  | noInfo
  | someInfo (addresses : List (Nat × Nat × Nat × Nat))
deriving DecidableEq, Repr

/-- Result of one `update_service` call: the listener state when the call
exits (Python mutates in place, so the state is meaningful even when an
exception propagates), the printed lines, and whether an uncaught exception
propagated out of the method. -/
structure UpdateResult where
  listener : MyListener
  output : List String
  raised : Bool
deriving DecidableEq, Repr

/-- `MyListener.update_service` (lines 32-52).  The engine's behaviour for
this call is `engine`; the name-resolution collaborators' behaviour is
`dns` / `netbios`.  Only `BadTypeInNameException` is caught; an exception
escaping `resolve_device_name` propagates (with no state mutated, since the
dict and max-length updates come after the resolution call). -/
def MyListener.update_service (l : MyListener) (engine : GetInfoOutcome)
    (dns : DnsOutcome) (netbios : Option NetBIOSEnv)
    (service_type name : String) : UpdateResult :=
  let formatted_type := MyListener.format_service_type service_type
  let formatted_name := MyListener.format_service_name name
  let attemptLines : List String :=
    if l.debug then
      [ForeYELLOW ++ "Attempting to get service info for type: " ++
        formatted_type ++ ", name: " ++ formatted_name]
    else []
  match engine with
  | .raisesBadType =>
    { listener := l,
      output := attemptLines ++
        (if l.debug then
          [ForeRED ++ "BadTypeInNameException for type: " ++ formatted_type ++
            ", name: " ++ formatted_name]
         else []),
      raised := false }
  | .noInfo =>
    { listener := l,
      output := attemptLines ++
        [ForeYELLOW ++ "No info found for service " ++ name],
      raised := false }
  | .someInfo addresses =>
    match addresses with
    | [] =>
      { listener := l,
        output := attemptLines ++
          [ForeYELLOW ++ "Service " ++ name ++ " has no address"],
        raised := false }
    | firstAddr :: _ =>
      let address := inet_ntoa firstAddr
      let r := resolve_device_name dns netbios
      match r.result with
      | .raisedExn => { listener := l, output := attemptLines, raised := true }
      | .ok device_name =>
        let l1 : MyListener :=
          { l with
            services := mapInsert l.services name address,
            max_name_length := max l.max_name_length name.length }
        { listener := l1,
          output := attemptLines ++
            [l1.format_output name.trim address.trim device_name.trim ++ "\r"],
          raised := false }

/-- `MyListener.add_service` (lines 29-30) delegates to `update_service`. -/
def MyListener.add_service (l : MyListener) (engine : GetInfoOutcome)
    (dns : DnsOutcome) (netbios : Option NetBIOSEnv)
    (service_type name : String) : UpdateResult :=
  MyListener.update_service l engine dns netbios service_type name

/-! ### ServiceTypeListener (type-discovery driver) -/

/-- `ServiceTypeListener.format_service_type` (lines 109-112): same body as
`MyListener.format_service_type`. -/
def ServiceTypeListener.format_service_type (service_type : String) : String :=
  if pyEndsWithDot service_type then service_type else service_type ++ "."

/-- Observable effects of the type-discovery driver: which formatted types a
`ServiceBrowser(...)` was constructed for (one entry per construction, in
order), and the printed lines.  `ServiceTypeListener.__init__` (lines 92-94)
stores only `zeroconf` and `debug` — there is no record of types already
seen. -/
structure TypeDiscoveryState where
  browsersCreated : List String
  output : List String
deriving DecidableEq, Repr

/-- `ServiceTypeListener.add_service` (lines 96-101): formats the discovered
name, prints the notice (plus a debug line), and unconditionally constructs
a new `ServiceBrowser` for the formatted type. -/
def ServiceTypeListener.add_service (debug : Bool) (st : TypeDiscoveryState)
    (name : String) : TypeDiscoveryState :=
  let formatted_type := ServiceTypeListener.format_service_type name
  { browsersCreated := st.browsersCreated ++ [formatted_type],
    output := st.output ++
      [ForeBLUE ++ "Discovered service type: " ++ formatted_type] ++
      (if debug then
        [ForeYELLOW ++ "Creating browser for type: " ++ formatted_type]
       else []) }

/-- Deliver a sequence of type-discovery events to a fresh
`ServiceTypeListener`. -/
def runTypeDiscovery (debug : Bool) (events : List String) :
    TypeDiscoveryState :=
  events.foldl (ServiceTypeListener.add_service debug) ⟨[], []⟩

/-! ### Spec-side definition for the rendering refinement claim (C4) -/

/-- Follows the spec's words for claim C4 only (not the source): the padding
after the service name right-pads using the running maximum
`maxNameLengthSeen` (analogously to the fixed IP width), instead of the
source's constant `60`. -/
def format_output_specVersion (l : MyListener)
    (name address device_name : String) : String :=
  let name_spacing :=
    pyRepeatSpace ((l.max_name_length : Int) - (name.length : Int) + 4)
  ForeGREEN ++ "Service " ++ name ++ name_spacing ++
    ForeCYAN ++ "IP: " ++ address ++
      pyRepeatSpace ((l.max_ip_length : Int) - (address.length : Int) + 4) ++
    ForeMAGENTA ++ "Name: " ++ device_name

/-- Number of consecutive `'.'` characters at the end of a string (used to
state that the canonical form carries exactly one trailing separator). -/
def trailingDotCount (s : String) : Nat :=
  (s.data.reverse.takeWhile (fun c => c == '.')).length

/-! ### Helper lemmas -/

theorem pyOrUnknown_ne_empty (o : Option String) : pyOrUnknown o ≠ "" := by
  cases o with
  | none => decide
  | some s =>
    by_cases h : s = ""
    · simp [pyOrUnknown, h]
    · simp [pyOrUnknown, h]

theorem find?_filter_ne (k k' : String) (h : ¬ k' = k) :
    ∀ m : List (String × String),
      (m.filter (fun p => p.1 != k)).find? (fun p => p.1 == k')
        = m.find? (fun p => p.1 == k')
  | [] => rfl
  | a :: t => by
    by_cases ha : a.1 = k
    · have h1 : (a.1 != k) = false := by simp [ha]
      have h2 : (a.1 == k') = false := by
        subst ha; exact beq_eq_false_iff_ne.mpr (fun e => h e.symm)
      simp [List.filter_cons, h1, List.find?_cons, h2, find?_filter_ne k k' h t]
    · have h1 : (a.1 != k) = true := by simp [ha]
      by_cases h2 : a.1 = k'
      · simp [List.filter_cons, h1, List.find?_cons, h2, h]
      · have h3 : (a.1 == k') = false := beq_eq_false_iff_ne.mpr h2
        simp [List.filter_cons, h1, List.find?_cons, h3, find?_filter_ne k k' h t]

theorem find?_filter_self (k : String) :
    ∀ m : List (String × String),
      (m.filter (fun p => p.1 != k)).find? (fun p => p.1 == k) = none
  | [] => rfl
  | a :: t => by
    by_cases ha : a.1 = k
    · have h1 : (a.1 != k) = false := by simp [ha]
      simp [List.filter_cons, h1, find?_filter_self k t]
    · have h1 : (a.1 != k) = true := by simp [ha]
      have h2 : (a.1 == k) = false := beq_eq_false_iff_ne.mpr ha
      simp [List.filter_cons, h1, List.find?_cons, h2, find?_filter_self k t]

theorem mapLookup_insert (m : List (String × String)) (k v k' : String) :
    mapLookup (mapInsert m k v) k' = if k' = k then some v else mapLookup m k' := by
  unfold mapLookup mapInsert
  by_cases h : k' = k
  · subst h
    simp [List.find?_cons]
  · have h2 : (k == k') = false := beq_eq_false_iff_ne.mpr (fun e => h e.symm)
    simp [List.find?_cons, h2, find?_filter_ne k k' h m, h]

theorem mapLookup_erase (m : List (String × String)) (k k' : String) :
    mapLookup (mapErase m k) k' = if k' = k then none else mapLookup m k' := by
  unfold mapLookup mapErase
  by_cases h : k' = k
  · subst h
    simp [find?_filter_self]
  · simp [find?_filter_ne k k' h m, h]

theorem pyEndsWithDot_append_dot (s : String) : pyEndsWithDot (s ++ ".") = true := by
  unfold pyEndsWithDot
  have hd : (s ++ ".").data = s.data ++ ['.'] := by cases s; rfl
  rw [hd, List.getLast?_concat]
  rfl

theorem formatType_of_not_dot (s : String) (h : pyEndsWithDot s = false) :
    MyListener.format_service_type s = s ++ "." := by
  simp [MyListener.format_service_type, h]

theorem formatType_of_dot (s : String) (h : pyEndsWithDot s = true) :
    MyListener.format_service_type s = s := by
  simp [MyListener.format_service_type, h]

theorem trailingDotCount_append_dot (s : String) (h : pyEndsWithDot s = false) :
    trailingDotCount (s ++ ".") = 1 := by
  unfold trailingDotCount
  have hd : (s ++ ".").data = s.data ++ ['.'] := by cases s; rfl
  rw [hd, List.reverse_append]
  have hrev : s.data.reverse.takeWhile (fun c => c == '.') = [] := by
    cases hr : s.data.reverse with
    | nil => rfl
    | cons c t =>
      have hc : s.data.getLast? = some c := by
        rw [← List.head?_reverse, hr]
        rfl
      have hne : (c == '.') = false := by
        unfold pyEndsWithDot at h
        rw [hc] at h
        simpa using h
      simp [List.takeWhile, hne]
  simp [List.takeWhile, hrev]

/-! ### Claim theorems -/

/-- C1: false on the code — `ServiceTypeListener` keeps no record of the
types already seen, so delivering the same type-discovery event twice to
`add_service` constructs a `ServiceBrowser` (instance-browse subscription)
twice for the same normalized type name, where the claim requires exactly
one. -/
theorem c1_duplicate_type_event_spawns_second_browser :
    ((runTypeDiscovery false
        ["_http._tcp.local.", "_http._tcp.local."]).browsersCreated).count
      "_http._tcp.local." = 2 := by
  rfl

/-- C8: normalization maps a name without a trailing `'.'` and the same name
with one trailing `'.'` to the identical canonical form, the canonical form
carries exactly one trailing separator, normalization is idempotent, the
three identical `format_service_type` / `format_service_name` copies agree,
and `"_http._tcp.local"` and `"_http._tcp.local."` both normalize to
`"_http._tcp.local."`. -/
theorem c8_normalization :
    (∀ n, pyEndsWithDot n = false →
      MyListener.format_service_type (n ++ ".") =
          MyListener.format_service_type n ∧
        trailingDotCount (MyListener.format_service_type n) = 1) ∧
    (∀ s, MyListener.format_service_type (MyListener.format_service_type s) =
      MyListener.format_service_type s) ∧
    (∀ s, ServiceTypeListener.format_service_type s =
        MyListener.format_service_type s ∧
      MyListener.format_service_name s = MyListener.format_service_type s) ∧
    MyListener.format_service_type "_http._tcp.local" = "_http._tcp.local." ∧
    MyListener.format_service_type "_http._tcp.local." = "_http._tcp.local." := by
  refine ⟨?_, ?_, ?_, by decide, by decide⟩
  · intro n hn
    rw [formatType_of_not_dot n hn,
      formatType_of_dot (n ++ ".") (pyEndsWithDot_append_dot n)]
    exact ⟨rfl, trailingDotCount_append_dot n hn⟩
  · intro s
    cases hs : pyEndsWithDot s with
    | true => rw [formatType_of_dot s hs, formatType_of_dot s hs]
    | false =>
      rw [formatType_of_not_dot s hs,
        formatType_of_dot (s ++ ".") (pyEndsWithDot_append_dot s)]
  · intro s
    exact ⟨rfl, rfl⟩

/-- Witness for `c8_normalization` at the concrete type name
`"_printer._tcp.local"`. -/
theorem c8_normalization_witness :
    MyListener.format_service_type ("_printer._tcp.local" ++ ".") =
        MyListener.format_service_type "_printer._tcp.local" ∧
      trailingDotCount (MyListener.format_service_type "_printer._tcp.local") = 1 :=
  c8_normalization.1 "_printer._tcp.local" (by decide)

/-! ### Shape of the name-resolution result -/

theorem resolve_ok_shape (dns : DnsOutcome) (nb : Option NetBIOSEnv) :
    (resolve_device_name dns nb).result = PyResult.raisedExn ∨
    ∃ o : Option String,
      (resolve_device_name dns nb).result = PyResult.ok (pyOrUnknown o) := by
  cases dns with
  | otherError => exact Or.inl rfl
  | ok h =>
    cases ht : pyTruthy (some h) with
    | true => exact Or.inr ⟨some h, by simp [resolve_device_name, ht]⟩
    | false =>
      cases nb with
      | none => exact Or.inr ⟨some h, by simp [resolve_device_name, ht]⟩
      | some env =>
        cases hc : env.ctorRaises with
        | true => exact Or.inl (by simp [resolve_device_name, ht, hc])
        | false =>
          cases hq : env.query with
          | ok v => exact Or.inr ⟨v, by simp [resolve_device_name, ht, hc, hq]⟩
          | raised =>
            exact Or.inr ⟨some h, by simp [resolve_device_name, ht, hc, hq]⟩
  | herror =>
    cases nb with
    | none => exact Or.inr ⟨none, rfl⟩
    | some env =>
      cases hc : env.ctorRaises with
      | true => exact Or.inl (by simp [resolve_device_name, pyTruthy, hc])
      | false =>
        cases hq : env.query with
        | ok v =>
          exact Or.inr ⟨v, by simp [resolve_device_name, pyTruthy, hc, hq]⟩
        | raised =>
          exact Or.inr ⟨none, by simp [resolve_device_name, pyTruthy, hc, hq]⟩
  | gaierror =>
    cases nb with
    | none => exact Or.inr ⟨none, rfl⟩
    | some env =>
      cases hc : env.ctorRaises with
      | true => exact Or.inl (by simp [resolve_device_name, pyTruthy, hc])
      | false =>
        cases hq : env.query with
        | ok v =>
          exact Or.inr ⟨v, by simp [resolve_device_name, pyTruthy, hc, hq]⟩
        | raised =>
          exact Or.inr ⟨none, by simp [resolve_device_name, pyTruthy, hc, hq]⟩

theorem resolve_nbClosed_eq_nbOpened (dns : DnsOutcome)
    (nb : Option NetBIOSEnv) :
    (resolve_device_name dns nb).nbClosed =
      (resolve_device_name dns nb).nbOpened := by
  cases dns with
  | otherError => rfl
  | ok h =>
    cases ht : pyTruthy (some h) with
    | true => simp [resolve_device_name, ht]
    | false =>
      cases nb with
      | none => simp [resolve_device_name, ht]
      | some env =>
        cases hc : env.ctorRaises with
        | true => simp [resolve_device_name, ht, hc]
        | false =>
          cases hq : env.query <;> simp [resolve_device_name, ht, hc, hq]
  | herror =>
    cases nb with
    | none => rfl
    | some env =>
      cases hc : env.ctorRaises with
      | true => simp [resolve_device_name, pyTruthy, hc]
      | false =>
        cases hq : env.query <;> simp [resolve_device_name, pyTruthy, hc, hq]
  | gaierror =>
    cases nb with
    | none => rfl
    | some env =>
      cases hc : env.ctorRaises with
      | true => simp [resolve_device_name, pyTruthy, hc]
      | false =>
        cases hq : env.query <;> simp [resolve_device_name, pyTruthy, hc, hq]

/-- C2 counterexample: when the reverse-DNS lookup succeeds but returns the
empty string, `if not name` treats it as a failure, so the NetBIOS query is
invoked after all and its name is returned — contradicting the claim that a
reverse-DNS success short-circuits the chain and its result is returned. -/
theorem c2_empty_hostname_counterexample :
    (resolve_device_name (.ok "")
        (some ⟨false, .ok (some "host-b")⟩)).nbQueried = true ∧
      (resolve_device_name (.ok "")
          (some ⟨false, .ok (some "host-b")⟩)).result = .ok "host-b" := by
  decide

/-- C2 (amended): the short-circuiting chain, with reverse-DNS success read
as a non-empty hostname and reverse-DNS failure as one of the handled
name-resolution errors: a non-empty reverse-DNS name is returned with the
NetBIOS step never invoked; on reverse-DNS failure a non-empty NetBIOS name
is returned; with NetBIOS absent, or failing, timing out, or returning an
absent/empty name, `"Unknown"` is returned. -/
theorem c2_resolution_chain :
    (∀ (hn : String) (nb : Option NetBIOSEnv), hn ≠ "" →
      resolve_device_name (.ok hn) nb = ⟨.ok hn, false, false, false⟩) ∧
    (∀ (dns : DnsOutcome) (env : NetBIOSEnv) (s : String),
      (dns = .herror ∨ dns = .gaierror) → env.ctorRaises = false →
      env.query = .ok (some s) → s ≠ "" →
      (resolve_device_name dns (some env)).result = .ok s) ∧
    (∀ dns : DnsOutcome, (dns = .herror ∨ dns = .gaierror) →
      (resolve_device_name dns none).result = .ok "Unknown") ∧
    (∀ (dns : DnsOutcome) (env : NetBIOSEnv),
      (dns = .herror ∨ dns = .gaierror) → env.ctorRaises = false →
      (env.query = .raised ∨ env.query = .ok none ∨
        env.query = .ok (some "")) →
      (resolve_device_name dns (some env)).result = .ok "Unknown") := by
  refine ⟨?_, ?_, ?_, ?_⟩
  · intro hn nb hne
    simp [resolve_device_name, pyTruthy, pyOrUnknown, hne]
  · rintro dns env s (rfl | rfl) hc hq hs <;>
      simp [resolve_device_name, pyTruthy, pyOrUnknown, hc, hq, hs]
  · rintro dns (rfl | rfl) <;> rfl
  · rintro dns env (rfl | rfl) hc (hq | hq | hq) <;>
      simp [resolve_device_name, pyTruthy, pyOrUnknown, hc, hq]

/-- Witness for `c2_resolution_chain` at concrete collaborator outcomes. -/
theorem c2_resolution_chain_witness :
    resolve_device_name (.ok "host-a") none = ⟨.ok "host-a", false, false, false⟩ ∧
    (resolve_device_name .herror
        (some ⟨false, .ok (some "host-b")⟩)).result = .ok "host-b" ∧
    (resolve_device_name .gaierror none).result = .ok "Unknown" :=
  ⟨c2_resolution_chain.1 "host-a" none (by decide),
   c2_resolution_chain.2.1 .herror ⟨false, .ok (some "host-b")⟩ "host-b"
     (Or.inl rfl) rfl rfl (by decide),
   c2_resolution_chain.2.2.1 .gaierror (Or.inr rfl)⟩

/-- C5 counterexample: the reverse-DNS call sits in a
`try/except (socket.herror, socket.gaierror)`; an error of any other class
raised there is not absorbed — `resolve_device_name` propagates it instead
of returning, contradicting the claim quantified over "any other error". -/
theorem c5_unhandled_dns_error_counterexample :
    (resolve_device_name .otherError none).result = PyResult.raisedExn := by
  decide

/-- C5 (amended): `resolve_device_name` returns normally for every handled
outcome — reverse-DNS success or name-resolution error (`herror` /
`gaierror`), NetBIOS absent, and every NetBIOS query outcome including
timeout and raised exceptions — but a reverse-DNS error outside the two
handled classes (and likewise a raising NetBIOS constructor, which sits
outside the `try`) propagates to the caller. -/
theorem c5_absorbed_failures (dns : DnsOutcome) (netbios : Option NetBIOSEnv)
    (hdns : dns ≠ DnsOutcome.otherError)
    (hnb : ∀ env, netbios = some env → env.ctorRaises = false) :
    ∃ s, (resolve_device_name dns netbios).result = PyResult.ok s := by
  rcases resolve_ok_shape dns netbios with hsh | ⟨o, hsh⟩
  · exfalso
    cases dns with
    | otherError => exact hdns rfl
    | ok h =>
      cases ht : pyTruthy (some h) with
      | true => simp [resolve_device_name, ht] at hsh
      | false =>
        cases netbios with
        | none => simp [resolve_device_name, ht] at hsh
        | some env =>
          have hc := hnb env rfl
          cases hq : env.query <;>
            simp [resolve_device_name, ht, hc, hq] at hsh
    | herror =>
      cases netbios with
      | none => simp [resolve_device_name, pyTruthy] at hsh
      | some env =>
        have hc := hnb env rfl
        cases hq : env.query <;>
          simp [resolve_device_name, pyTruthy, hc, hq] at hsh
    | gaierror =>
      cases netbios with
      | none => simp [resolve_device_name, pyTruthy] at hsh
      | some env =>
        have hc := hnb env rfl
        cases hq : env.query <;>
          simp [resolve_device_name, pyTruthy, hc, hq] at hsh
  · exact ⟨pyOrUnknown o, hsh⟩

/-- Witness for `c5_absorbed_failures`: reverse-DNS fails with a handled
error and the NetBIOS query raises. -/
theorem c5_absorbed_failures_witness :
    ∃ s, (resolve_device_name .herror
        (some ⟨false, .raised⟩)).result = PyResult.ok s :=
  c5_absorbed_failures .herror (some ⟨false, .raised⟩) (by decide)
    (fun env he => by cases he; rfl)

/-- C9: on every path of the NetBIOS step on which the resource was opened
(the constructor returned) — query success, falsy result, or an exception
raised during the query — `nb.close()` runs (the `finally` clause) before
`resolve_device_name` exits the step. -/
theorem c9_netbios_always_closed (dns : DnsOutcome)
    (netbios : Option NetBIOSEnv)
    (h : (resolve_device_name dns netbios).nbOpened = true) :
    (resolve_device_name dns netbios).nbClosed = true := by
  rw [resolve_nbClosed_eq_nbOpened dns netbios]
  exact h

/-- Witness for `c9_netbios_always_closed`: reverse DNS fails and the
NetBIOS query raises; the opened resource is still closed. -/
theorem c9_netbios_always_closed_witness :
    (resolve_device_name .herror (some ⟨false, .raised⟩)).nbOpened = true ∧
    (resolve_device_name .herror (some ⟨false, .raised⟩)).nbClosed = true :=
  ⟨by decide, c9_netbios_always_closed .herror (some ⟨false, .raised⟩) (by decide)⟩

/-- C10: whenever `resolve_device_name` returns, the returned device name is
a non-empty string; an empty reverse-DNS result is falsy and falls through
to the NetBIOS step rather than short-circuiting; and a `None`/empty NetBIOS
result still yields the literal `"Unknown"`. -/
theorem c10_nonempty_device_name :
    (∀ (dns : DnsOutcome) (nb : Option NetBIOSEnv) (s : String),
      (resolve_device_name dns nb).result = PyResult.ok s → s ≠ "") ∧
    (∀ env : NetBIOSEnv, env.ctorRaises = false →
      (resolve_device_name (.ok "") (some env)).nbQueried = true) ∧
    (∀ env : NetBIOSEnv, env.ctorRaises = false →
      (env.query = .ok none ∨ env.query = .ok (some "")) →
      (resolve_device_name .herror (some env)).result = PyResult.ok "Unknown") := by
  refine ⟨?_, ?_, ?_⟩
  · intro dns nb s h
    rcases resolve_ok_shape dns nb with hsh | ⟨o, hsh⟩
    · rw [h] at hsh
      exact absurd hsh (by simp)
    · rw [h] at hsh
      injection hsh with he
      rw [he]
      exact pyOrUnknown_ne_empty o
  · intro env hc
    cases hq : env.query <;> simp [resolve_device_name, pyTruthy, hc, hq]
  · rintro env hc (hq | hq) <;>
      simp [resolve_device_name, pyTruthy, pyOrUnknown, hc, hq]

/-- Witness for `c10_nonempty_device_name` at concrete outcomes. -/
theorem c10_nonempty_device_name_witness :
    ("Unknown" : String) ≠ "" ∧
    (resolve_device_name (.ok "") (some ⟨false, .ok none⟩)).nbQueried = true :=
  ⟨c10_nonempty_device_name.1 .herror none "Unknown" (by decide),
   c10_nonempty_device_name.2.1 ⟨false, .ok none⟩ rfl⟩

/-! ### Instance-tracker lemmas -/

theorem update_service_services_cases (l : MyListener) (engine : GetInfoOutcome)
    (dns : DnsOutcome) (nb : Option NetBIOSEnv) (st n : String) :
    (MyListener.update_service l engine dns nb st n).listener.services = l.services ∨
    ∃ a, (MyListener.update_service l engine dns nb st n).listener.services
      = mapInsert l.services n a := by
  cases engine with
  | raisesBadType => exact Or.inl rfl
  | noInfo => exact Or.inl rfl
  | someInfo addrs =>
    cases addrs with
    | nil => exact Or.inl rfl
    | cons a t =>
      cases hr : (resolve_device_name dns nb).result with
      | raisedExn => exact Or.inl (by simp [MyListener.update_service, hr])
      | ok dn =>
        exact Or.inr ⟨inet_ntoa a, by simp [MyListener.update_service, hr]⟩

theorem remove_service_lookup (l : MyListener) (n m : String) :
    mapLookup ((MyListener.remove_service l n).1).services m
      = if m = n then none else mapLookup l.services m := by
  by_cases h : (mapLookup l.services n).isSome = true
  · simp [MyListener.remove_service, h, mapLookup_erase]
  · have hn : mapLookup l.services n = none := by
      cases hv : mapLookup l.services n with
      | none => rfl
      | some v => rw [hv] at h; exact absurd rfl h
    by_cases hm : m = n
    · subst hm
      simp [MyListener.remove_service, h, hn]
    · simp [MyListener.remove_service, h, hm]

/-- C3 counterexample: on the scenario event (`Printer1`, address
`127.0.0.1`, resolver returning `"localhost"`) the registry entry created by
`update_service` is the bare address string — `self.services[name] =
address` — so the device name `"localhost"` is rendered but not stored in
the registry, contradicting the claim that the full record including
`deviceName` is upserted. -/
theorem c3_device_name_not_stored_counterexample :
    (MyListener.update_service (MyListener.init false)
        (.someInfo [(127,0,0,1)]) (.ok "localhost") none
        "_ipp._tcp.local." "Printer1._ipp._tcp.local.").listener.services
      = [("Printer1._ipp._tcp.local.", "127.0.0.1")] ∧
      ("127.0.0.1" : String) ≠ "localhost" := by
  decide

/-- C3 (amended): on every successfully resolved add/update event the
registry maps the raw instance name to the resolved dotted-decimal address
only; the device name produced by the resolver is rendered in the output
line but is not part of the registry entry. -/
theorem c3_registry_stores_address_only (l : MyListener)
    (a : Nat × Nat × Nat × Nat) (rest : List (Nat × Nat × Nat × Nat))
    (dns : DnsOutcome) (nb : Option NetBIOSEnv) (st n dname : String)
    (h : (resolve_device_name dns nb).result = PyResult.ok dname) :
    (MyListener.update_service l (.someInfo (a :: rest))
        dns nb st n).listener.services = mapInsert l.services n (inet_ntoa a) ∧
    mapLookup (MyListener.update_service l (.someInfo (a :: rest))
        dns nb st n).listener.services n = some (inet_ntoa a) := by
  have h1 : (MyListener.update_service l (.someInfo (a :: rest))
      dns nb st n).listener.services = mapInsert l.services n (inet_ntoa a) := by
    simp [MyListener.update_service, h]
  refine ⟨h1, ?_⟩
  rw [h1, mapLookup_insert, if_pos rfl]

/-- Witness for `c3_registry_stores_address_only` at the scenario event. -/
theorem c3_registry_stores_address_only_witness :
    (MyListener.update_service (MyListener.init false)
        (.someInfo [(127,0,0,1)]) (.ok "localhost") none
        "_ipp._tcp.local." "Printer1._ipp._tcp.local.").listener.services
      = mapInsert (MyListener.init false).services "Printer1._ipp._tcp.local."
          (inet_ntoa (127,0,0,1)) ∧
    mapLookup (MyListener.update_service (MyListener.init false)
        (.someInfo [(127,0,0,1)]) (.ok "localhost") none
        "_ipp._tcp.local." "Printer1._ipp._tcp.local.").listener.services
        "Printer1._ipp._tcp.local." = some (inet_ntoa (127,0,0,1)) :=
  c3_registry_stores_address_only (MyListener.init false) (127,0,0,1) []
    (.ok "localhost") none "_ipp._tcp.local." "Printer1._ipp._tcp.local."
    "localhost" (by decide)

/-- C4 counterexample: two listener states that differ only in the tracked
running maximum name length render identical lines (the source pads the
name column from the constant `60`, not from `max_name_length`), while the
spec-side definition that does pad from the running maximum renders
different lines — so the claim that the name padding is computed from
`maxNameLengthSeen` is false on the code. -/
theorem c4_padding_ignores_running_max_counterexample :
    MyListener.format_output ⟨false, [], 10, 15⟩ "abc" "1.2.3.4" "pc"
      = MyListener.format_output ⟨false, [], 20, 15⟩ "abc" "1.2.3.4" "pc" ∧
    format_output_specVersion ⟨false, [], 10, 15⟩ "abc" "1.2.3.4" "pc"
      ≠ format_output_specVersion ⟨false, [], 20, 15⟩ "abc" "1.2.3.4" "pc" := by
  decide

/-- C4 (amended): the rendered line is independent of the tracked running
maximum (`max_name_length` is updated on every successful event as
`max(old, len(name))` but never used for padding); the name column pads from
the fixed constant `60` (+4) and the address column from the fixed IP width
`max_ip_length = 15` (+4), so for names up to 64 and addresses up to 19
characters the line length is the constant `116` plus the device-name
length. -/
theorem c4_fixed_width_padding :
    (∀ (l : MyListener) (M : Nat) (name address dn : String),
      MyListener.format_output { l with max_name_length := M } name address dn
        = MyListener.format_output l name address dn) ∧
    (∀ debug : Bool, (MyListener.init debug).max_ip_length = 15) ∧
    (∀ (l : MyListener) (name address dn : String),
      name.length ≤ 64 → address.length ≤ 19 → l.max_ip_length = 15 →
      (MyListener.format_output l name address dn).length = 116 + dn.length) ∧
    (∀ (l : MyListener) (a : Nat × Nat × Nat × Nat)
        (rest : List (Nat × Nat × Nat × Nat)) (dns : DnsOutcome)
        (nb : Option NetBIOSEnv) (st n dname : String),
      (resolve_device_name dns nb).result = PyResult.ok dname →
      (MyListener.update_service l (.someInfo (a :: rest))
          dns nb st n).listener.max_name_length
        = max l.max_name_length n.length) := by
  refine ⟨?_, ?_, ?_, ?_⟩
  · intro l M name address dn
    rfl
  · intro debug
    rfl
  · intro l name address dn hn ha hip
    simp only [MyListener.format_output, pyRepeatSpace, hip]
    simp only [String.length_append]
    have e1 : ForeGREEN.length = 5 := rfl
    have e2 : ForeCYAN.length = 5 := rfl
    have e3 : ForeMAGENTA.length = 5 := rfl
    have e4 : ("Service " : String).length = 8 := rfl
    have e5 : ("IP: " : String).length = 4 := rfl
    have e6 : ("Name: " : String).length = 6 := rfl
    have e7 : ∀ k : Int,
        (String.mk (List.replicate k.toNat ' ')).length = k.toNat := by
      intro k
      simp [String.length]
    rw [e1, e2, e3, e4, e5, e6, e7, e7]
    omega
  · intro l a rest dns nb st n dname h
    simp [MyListener.update_service, h]

/-- Witness for `c4_fixed_width_padding` on the scenario line. -/
theorem c4_fixed_width_padding_witness :
    (MyListener.format_output (MyListener.init false)
        "Printer1._ipp._tcp.local." "127.0.0.1" "localhost").length
      = 116 + ("localhost" : String).length :=
  c4_fixed_width_padding.2.2.1 (MyListener.init false)
    "Printer1._ipp._tcp.local." "127.0.0.1" "localhost"
    (by decide) (by decide) rfl

/-- C6 counterexample: with debug mode off, a `BadTypeInNameException` event
produces no output at all — the warning print sits inside `if self.debug` —
so the claim that `onInstanceUpdated` "reports a warning" on every
malformed-type error is false in non-debug mode (the state is indeed
unchanged). -/
theorem c6_no_warning_without_debug_counterexample :
    (MyListener.update_service (MyListener.init false) .raisesBadType .herror
      none "_badtype" "inst._badtype").output = [] := by
  decide

/-- C6 (amended): on a `BadTypeInNameException` from the engine,
`update_service` returns normally with the registry and `max_name_length`
exactly as before the call, and it reports the warning if and only if debug
mode is enabled. -/
theorem c6_badtype_state_unchanged (l : MyListener) (dns : DnsOutcome)
    (nb : Option NetBIOSEnv) (st n : String) :
    (MyListener.update_service l .raisesBadType dns nb st n).listener = l ∧
    (MyListener.update_service l .raisesBadType dns nb st n).raised = false ∧
    ((MyListener.update_service l .raisesBadType dns nb st n).output = [] ↔
      l.debug = false) := by
  cases hd : l.debug <;> simp [MyListener.update_service, hd]

/-- C7: for every prior registry state and every collaborator behaviour, an
update event for instance name `n` followed immediately by a removal event
for `n` leaves `n` absent from the registry, and the registry binding of
every other instance name is exactly as before the pair of events. -/
theorem c7_update_then_remove (l : MyListener) (engine : GetInfoOutcome)
    (dns : DnsOutcome) (nb : Option NetBIOSEnv) (st n : String) :
    mapLookup ((MyListener.remove_service
        (MyListener.update_service l engine dns nb st n).listener n).1).services n
      = none ∧
    ∀ m, m ≠ n →
      mapLookup ((MyListener.remove_service
          (MyListener.update_service l engine dns nb st n).listener n).1).services m
        = mapLookup l.services m := by
  constructor
  · rw [remove_service_lookup]
    simp
  · intro m hm
    rw [remove_service_lookup, if_neg hm]
    rcases update_service_services_cases l engine dns nb st n with h | ⟨a, h⟩
    · rw [h]
    · rw [h, mapLookup_insert, if_neg hm]

/-- Witness for `c7_update_then_remove` at a concrete update/remove pair. -/
theorem c7_update_then_remove_witness :
    mapLookup ((MyListener.remove_service
        (MyListener.update_service (MyListener.init false)
          (.someInfo [(192,168,1,7)]) .herror none
          "_ipp._tcp.local." "A._ipp._tcp.local.").listener
        "A._ipp._tcp.local.").1).services "A._ipp._tcp.local." = none ∧
    mapLookup ((MyListener.remove_service
        (MyListener.update_service (MyListener.init false)
          (.someInfo [(192,168,1,7)]) .herror none
          "_ipp._tcp.local." "A._ipp._tcp.local.").listener
        "A._ipp._tcp.local.").1).services "B._ipp._tcp.local."
      = mapLookup (MyListener.init false).services "B._ipp._tcp.local." :=
  ⟨(c7_update_then_remove (MyListener.init false) (.someInfo [(192,168,1,7)])
      .herror none "_ipp._tcp.local." "A._ipp._tcp.local.").1,
   (c7_update_then_remove (MyListener.init false) (.someInfo [(192,168,1,7)])
      .herror none "_ipp._tcp.local." "A._ipp._tcp.local.").2
     "B._ipp._tcp.local." (by decide)⟩
